import Mathlib

/-!
Shallow embedding of the Pioneer Helpdesk ticketing core
(src/utils.py, src/api.py, src/app.py, src/schema.py,
src/isp_ticketing_streamlit_pioneer_pg/utils.py).

Conventions of the embedding:
* Python `datetime` values are integers counting microseconds since the
  Unix epoch (datetime has microsecond resolution); `timedelta(hours=h)`
  and `timedelta(days=d)` become the corresponding microsecond counts.
* A SQLAlchemy `Ticket` / `TicketEvent` row becomes a Lean structure with
  the same columns; nullable text columns that the code treats with `or`
  fallbacks are plain `String` (empty string for NULL/blank), `note` is
  `Option String`, `sla_due` is `Option Int` (NULL when the calculator
  returns None).
* Streamlit handlers are modelled as pure functions from their inputs
  (current ticket row, form values, the clock) to the new row plus the
  list of `TicketEvent` rows they insert.
-/

namespace Helpdesk

/-- Microseconds per second: datetimes are microseconds since the epoch. -/
def microsPerSecond : Int := 1000000

/-- `timedelta(hours=h)` in microseconds. -/
def hoursTd (h : Int) : Int := h * 3600 * microsPerSecond

/-- `timedelta(days=d)` in microseconds. -/
def daysTd (d : Int) : Int := d * 24 * 3600 * microsPerSecond

/-- src/utils.py `compute_sla_due`: an if-chain over the priority label;
returns `None` (here `none`) for any unrecognized label. -/
def compute_sla_due (priority : String) (created_at : Int) : Option Int :=
  if priority = "Critical" then some (created_at + hoursTd 4)
  else if priority = "High" then some (created_at + hoursTd 12)
  else if priority = "Medium" then some (created_at + daysTd 1)
  else if priority = "Low" then some (created_at + daysTd 3)
  else none

namespace PioneerPg

/-- src/isp_ticketing_streamlit_pioneer_pg/utils.py `PRIORITY_SLA_HOURS`:
the dict {Low: 72, Medium: 24, High: 8, Critical: 2}, as a lookup. -/
def PRIORITY_SLA_HOURS (priority : String) : Option Int :=
  if priority = "Low" then some 72
  else if priority = "Medium" then some 24
  else if priority = "High" then some 8
  else if priority = "Critical" then some 2
  else none

/-- src/isp_ticketing_streamlit_pioneer_pg/utils.py `compute_sla_due`:
`created_at + timedelta(hours=PRIORITY_SLA_HOURS.get(priority, 72))`,
total with a 72-hour fallback for unrecognized labels. -/
def compute_sla_due (priority : String) (created_at : Int) : Int :=
  created_at + hoursTd ((PRIORITY_SLA_HOURS priority).getD 72)

end PioneerPg

/-- 2024-01-01T00:00:00Z as epoch microseconds (1704067200 seconds). -/
def jan1_2024_utc : Int := 1704067200 * microsPerSecond

/-- 2024-01-01T04:00:00Z as epoch microseconds (1704081600 seconds). -/
def jan1_2024_0400_utc : Int := 1704081600 * microsPerSecond

/-- C3: for every creation timestamp the SLA calculator of src/utils.py adds
exactly the fixed offset of the priority — Critical 4h, High 12h, Medium 1
day, Low 3 days — and in particular a Critical ticket created at
2024-01-01T00:00:00Z gets sla_due = 2024-01-01T04:00:00Z. -/
theorem compute_sla_due_fixed_offsets :
    (∀ T : Int,
      compute_sla_due "Critical" T = some (T + hoursTd 4) ∧
      compute_sla_due "High" T = some (T + hoursTd 12) ∧
      compute_sla_due "Medium" T = some (T + daysTd 1) ∧
      compute_sla_due "Low" T = some (T + daysTd 3)) ∧
    compute_sla_due "Critical" jan1_2024_utc = some jan1_2024_0400_utc := by
  constructor
  · intro T
    refine ⟨rfl, ?_, ?_, ?_⟩ <;> simp [compute_sla_due]
  · decide

/-- Python `str.strip()`: drop leading and trailing whitespace. Implemented
by structural recursion on the character list so that the kernel can
evaluate it on concrete strings (core `String.trim` is defined through
byte-index loops that do not reduce). -/
def pyStrip (s : String) : String :=
  ⟨((s.data.dropWhile Char.isWhitespace).reverse.dropWhile Char.isWhitespace).reverse⟩

/-- src/schema.py `Ticket`: one row of the tickets table. `call_source` is
assigned by the app's creation form; src/api.py leaves it alone, hence the
default. -/
structure Ticket where
  ticket_key : String
  created_at : Int
  customer_name : String
  account_number : String
  phone : String
  service_type : String
  call_source : String := ""
  call_reason : String
  description : String
  status : String
  priority : String
  assigned_to : String
  sla_due : Option Int
deriving DecidableEq, Repr

/-- src/schema.py `TicketEvent`: one row of the ticket_events audit table. -/
structure TicketEvent where
  ticket_id : Int
  actor : String
  action : String
  note : Option String
  created_at : Int
deriving DecidableEq, Repr

/-- `f"TCK-{int(created_at.timestamp())}"`: the ticket key is the creation
time truncated to whole seconds (Python `int()` truncates toward zero, as
does `Int.tdiv`). Used identically by src/api.py `create_ticket` and
src/app.py `page_new_ticket`. -/
def ticket_key_of (created_at : Int) : String :=
  "TCK-" ++ toString (Int.tdiv created_at microsPerSecond)

/-- `ticket.get(key, default)` on the JSON payload dict of src/api.py,
with the payload modelled as an association list. -/
def dictGetD (payload : List (String × String)) (key default : String) : String :=
  match payload.find? (fun p => p.1 == key) with
  | some p => p.2
  | none => default

/-- src/api.py `create_ticket` (POST /tickets). The handler calls
`datetime.utcnow()` separately for the key, for `created_at` and for the
SLA computation, so the three clock reads are distinct parameters. The
priority label is taken from the payload unvalidated (default "Normal")
and `sla_due` is whatever src/utils.py `compute_sla_due` returns for it. -/
def create_ticket (payload : List (String × String))
    (nowKey nowCreated nowSla : Int) : Ticket :=
  { ticket_key := ticket_key_of nowKey
    customer_name := dictGetD payload "customer_name" ""
    account_number := dictGetD payload "account_number" ""
    phone := dictGetD payload "phone" ""
    service_type := dictGetD payload "service_type" "Other"
    call_reason := dictGetD payload "call_reason" "other"
    description := dictGetD payload "description" ""
    status := "Open"
    priority := dictGetD payload "priority" "Normal"
    assigned_to := dictGetD payload "assigned_to" "Unassigned"
    created_at := nowCreated
    sla_due := compute_sla_due (dictGetD payload "priority" "Normal") nowSla }

/-- src/app.py `page_new_ticket` create handler: a single
`created_at = datetime.utcnow()` feeds the key, the column and the SLA
computation; name, account, phone and description are stripped. (The
handler also inserts one TicketEvent with action "create"; no claim
touches it, so it is not returned here.) -/
def page_new_ticket_create (created_at : Int)
    (customer_name account_number phone service_type call_source call_reason
      description priority assigned_to : String) : Ticket :=
  { ticket_key := ticket_key_of created_at
    created_at := created_at
    customer_name := pyStrip customer_name
    account_number := pyStrip account_number
    phone := pyStrip phone
    service_type := service_type
    call_source := call_source
    call_reason := call_reason
    description := pyStrip description
    status := "Open"
    priority := priority
    assigned_to := assigned_to
    sla_due := compute_sla_due priority created_at }

/-- The TicketEvent rows inserted by the save handler of src/app.py
`page_ticket_detail`: exactly one event with action "note" and the
stripped note text when `new_note.strip()` is truthy, none otherwise.
No event of any other action kind is ever inserted by the handler. -/
def submit_note_events (ticket_id : Int) (actor new_note : String)
    (now : Int) : List TicketEvent :=
  if pyStrip new_note = "" then []
  else [{ ticket_id := ticket_id, actor := actor, action := "note",
          note := some (pyStrip new_note), created_at := now }]

/-- The save handler of src/app.py `page_ticket_detail` (form
"update_ticket"): unconditionally assigns the three form values to
`status`, `priority` and `assigned_to`, leaves every other column
(ticket_key, created_at, sla_due, ...) untouched, commits, and then
appends the note event when the note is non-blank. It never raises and
always ends in `st.success`. -/
def page_ticket_detail_submit (t : Ticket) (ticket_id : Int)
    (current_user new_status new_priority new_assigned new_note : String)
    (now : Int) : Ticket × List TicketEvent :=
  ({ t with status := new_status, priority := new_priority,
            assigned_to := new_assigned },
   submit_note_events ticket_id current_user new_note now)

/-- The permission gate at the top of src/app.py `page_ticket_detail`:
the view is denied iff `role != "Admin" and t.assigned_to not in
GROUP_MEMBERS.get(role, [])`; this value is the complement (true =
allowed). -/
def page_ticket_detail_allowed (t : Ticket) (role : String)
    (group_members : String → List String) : Bool :=
  role == "Admin" || (group_members role).contains t.assigned_to

/-- src/app.py `load_groups`: builds group → members from the users dict
(user name → group name), then overwrites the "Admin" entry with the full
user list. `GROUP_MEMBERS.get(g, [])` for an absent group gives []. -/
def load_groups (users : List (String × String)) (g : String) : List String :=
  if g = "Admin" then users.map Prod.fst
  else (users.filter (fun u => u.2 == g)).map Prod.fst

/-- src/app.py `filter_by_role`: Admin passes the query through; otherwise
`allowed = set(GROUP_MEMBERS.get(role, []))` and the query keeps rows with
`assigned_to` in `allowed` when `allowed` is non-empty, else rows with
`assigned_to == user`. The query is modelled as a list of rows. -/
def filter_by_role (tickets : List Ticket) (role user : String)
    (group_members : String → List String) : List Ticket :=
  if role = "Admin" then tickets
  else
    let allowed := group_members role
    if allowed.isEmpty then tickets.filter (fun t => t.assigned_to == user)
    else tickets.filter (fun t => allowed.contains t.assigned_to)

/-- Python truthiness of `e.note` in src/app.py `dataframe_with_badges`:
a note string that is present and non-empty. -/
def event_note_truthy (e : TicketEvent) : Bool :=
  match e.note with
  | some s => s != ""
  | none => false

/-- `[e for e in t.events if e.note]` of src/app.py `dataframe_with_badges`. -/
def note_events_of (evs : List TicketEvent) : List TicketEvent :=
  evs.filter event_note_truthy

/-- `sorted(note_events, key=lambda e: e.created_at)[-1]`: Python `sorted`
is stable, so the last element of the sorted list is the last-occurring
element among those with maximal `created_at`. -/
def stable_sorted_last : List TicketEvent → Option TicketEvent
  | [] => none
  | e :: es =>
    match stable_sorted_last es with
    | none => some e
    | some m => if m.created_at < e.created_at then some e else some m

/-- The "Latest Note" column of src/app.py `dataframe_with_badges`:
`latest_note = t.description or "-"`, overwritten by
`sorted(note_events, key=created_at)[-1].note` when note-carrying events
exist. -/
def latest_note (t : Ticket) (evs : List TicketEvent) : String :=
  match stable_sorted_last (note_events_of evs) with
  | some m => m.note.getD ""
  | none => if t.description = "" then "-" else t.description

/-- A concrete ticket created with priority "Medium" at time 0, so its
stored sla_due is `some (daysTd 1)`. -/
def c1_ticket : Ticket :=
  page_new_ticket_create 0 "Alice" "1001" "5550001" "Fiber" "phone" "outage"
    "modem down" "Medium" "Chuck"

/-- The result of saving the detail form on `c1_ticket` with the priority
changed to "Critical" (note left blank). -/
def c1_updated : Ticket × List TicketEvent :=
  page_ticket_detail_submit c1_ticket 1 "Admin" "Open" "Critical" "Chuck" ""
    7200000000

/-- C1 counterexample: changing a ticket's priority from "Medium" to
"Critical" through the detail-page save leaves sla_due at the value
computed at creation (created_at + 1 day), which differs from the SLA
calculator applied to the new priority and the original created_at
(created_at + 4 hours) — so sla_due is not kept consistent with the
current priority. -/
theorem detail_submit_stale_sla_counterexample :
    c1_updated.1.priority = "Critical" ∧
    c1_updated.1.created_at = 0 ∧
    c1_updated.1.sla_due = some (daysTd 1) ∧
    compute_sla_due "Critical" 0 = some (hoursTd 4) ∧
    c1_updated.1.sla_due ≠ compute_sla_due c1_updated.1.priority c1_updated.1.created_at := by
  decide

/-- C1 amended: the detail-page save never recomputes sla_due — the
updated ticket keeps its previous sla_due and created_at unchanged even
when the submitted priority differs, so sla_due stays consistent with the
creation-time priority rather than the current one. -/
theorem detail_submit_preserves_sla_due (t : Ticket) (tid : Int)
    (u s p a n : String) (now : Int) :
    (page_ticket_detail_submit t tid u s p a n now).1.sla_due = t.sla_due ∧
    (page_ticket_detail_submit t tid u s p a n now).1.created_at = t.created_at ∧
    (page_ticket_detail_submit t tid u s p a n now).1.priority = p :=
  ⟨rfl, rfl, rfl⟩

/-- A concrete ticket created with priority "Low" at time 100000000. -/
def c2_ticket : Ticket :=
  page_new_ticket_create 100000000 "Bob" "1002" "5550002" "DSL" "phone"
    "repair" "line noise" "Low" "Aidan"

/-- The result of saving the detail form on `c2_ticket` with the status
changed from "Open" to "Resolved" and a blank note. -/
def c2_updated : Ticket × List TicketEvent :=
  page_ticket_detail_submit c2_ticket 2 "Admin" "Resolved" "Low" "Aidan" ""
    200000000

/-- C2 counterexample: a save that changes the status from "Open" to
"Resolved" inserts zero TicketEvent rows, not exactly one event recording
the change. -/
theorem detail_submit_no_change_event_counterexample :
    c2_ticket.status = "Open" ∧
    c2_updated.1.status = "Resolved" ∧
    c2_updated.2 = [] := by
  decide

/-- C2 amended: the detail-page save assigns the submitted status,
priority and assignee unconditionally (no no-op guard and no change
events); the only event it can insert is a single action-"note" event by
the current user, present exactly when the note text is non-blank. -/
theorem detail_submit_events_only_notes (t : Ticket) (tid : Int)
    (u s p a n : String) (now : Int) :
    (page_ticket_detail_submit t tid u s p a n now).1.status = s ∧
    (page_ticket_detail_submit t tid u s p a n now).1.priority = p ∧
    (page_ticket_detail_submit t tid u s p a n now).1.assigned_to = a ∧
    (page_ticket_detail_submit t tid u s p a n now).2.length =
      (if pyStrip n = "" then 0 else 1) ∧
    ∀ e ∈ (page_ticket_detail_submit t tid u s p a n now).2,
      e.action = "note" ∧ e.actor = u := by
  refine ⟨rfl, rfl, rfl, ?_, ?_⟩
  · by_cases h : pyStrip n = "" <;>
      simp [page_ticket_detail_submit, submit_note_events, h]
  · by_cases h : pyStrip n = "" <;>
      simp [page_ticket_detail_submit, submit_note_events, h]

/-- Witness for C2 amended at a concrete input: the single event inserted
by a save carrying the note " done " has action "note" and actor "Admin". -/
theorem detail_submit_events_only_notes_witness :
    (⟨2, "Admin", "note", some "done", 300000000⟩ : TicketEvent).action = "note" ∧
    (⟨2, "Admin", "note", some "done", 300000000⟩ : TicketEvent).actor = "Admin" :=
  (detail_submit_events_only_notes c2_ticket 2 "Admin" "Resolved" "Low"
      "Aidan" " done " 300000000).2.2.2.2 _ (by decide)

/-- A concrete ticket created with priority "High" at time 0. -/
def c7_ticket : Ticket :=
  page_new_ticket_create 0 "Carol" "1003" "5550003" "TV" "phone" "billing"
    "bill issue" "High" "Billy"

/-- The result of saving the detail form on `c7_ticket` with a
whitespace-only note and the status moved to "In Progress". -/
def c7_updated : Ticket × List TicketEvent :=
  page_ticket_detail_submit c7_ticket 3 "Billy" "In Progress" "High" "Billy"
    "   " 50000000

/-- C7 counterexample: submitting a whitespace-only note does not fail
with any error — the save completes, still applies the submitted field
values (the ticket row changes), and merely skips the event insert. -/
theorem whitespace_note_silent_counterexample :
    c7_updated.2 = [] ∧
    c7_updated.1.status = "In Progress" ∧
    c7_updated.1 ≠ c7_ticket := by
  decide

/-- C7 amended: a whitespace-only note is silently ignored (no event is
appended and no error is raised; the save still succeeds); a non-blank
note appends exactly one TicketEvent with action "note" and the stripped
note text; and the note text has no effect on the ticket row itself. -/
theorem add_note_spec (t : Ticket) (tid : Int) (u s p a n : String)
    (now : Int) :
    (pyStrip n = "" → (page_ticket_detail_submit t tid u s p a n now).2 = []) ∧
    (pyStrip n ≠ "" → (page_ticket_detail_submit t tid u s p a n now).2 =
      [{ ticket_id := tid, actor := u, action := "note",
         note := some (pyStrip n), created_at := now }]) ∧
    (page_ticket_detail_submit t tid u s p a n now).1 =
      (page_ticket_detail_submit t tid u s p a "" now).1 := by
  refine ⟨?_, ?_, rfl⟩ <;> intro h <;>
    simp [page_ticket_detail_submit, submit_note_events, h]

/-- Witness for C7 amended at a concrete input: a save carrying the note
" call back " inserts exactly the one stripped "note" event. -/
theorem add_note_spec_witness :
    (page_ticket_detail_submit c7_ticket 3 "Billy" "Open" "High" "Billy"
        " call back " 60000000).2 =
      [⟨3, "Billy", "note", some "call back", 60000000⟩] :=
  (add_note_spec c7_ticket 3 "Billy" "Open" "High" "Billy" " call back "
      60000000).2.1 (by decide)

/-- C10: when the creation payload's "priority" entry is absent or is any
label outside {Low, Medium, High, Critical}, the API create_ticket
handler still succeeds (it is a total function with no raise path): the
persisted priority is the unvalidated label — "Normal" when the key is
absent — and sla_due is `none`, because src/utils.py compute_sla_due
returns None for every unrecognized label. -/
theorem create_ticket_unrecognized_priority (payload : List (String × String))
    (n1 n2 n3 : Int)
    (h : dictGetD payload "priority" "Normal" ∉
      (["Low", "Medium", "High", "Critical"] : List String)) :
    (create_ticket payload n1 n2 n3).priority =
      dictGetD payload "priority" "Normal" ∧
    (create_ticket payload n1 n2 n3).sla_due = none ∧
    (payload.find? (fun p => p.1 == "priority") = none →
      (create_ticket payload n1 n2 n3).priority = "Normal") := by
  simp only [List.mem_cons, List.not_mem_nil, or_false, not_or] at h
  obtain ⟨hLow, hMed, hHigh, hCrit⟩ := h
  refine ⟨rfl, ?_, ?_⟩
  · simp [create_ticket, compute_sla_due, hLow, hMed, hHigh, hCrit]
  · intro hf
    simp [create_ticket, dictGetD, hf]

/-- Witness for C10 at a concrete input: a payload with no "priority" key
yields priority "Normal" and no SLA due date. -/
theorem create_ticket_unrecognized_priority_witness :
    (create_ticket [("customer_name", "Dana")] 0 0 0).priority = "Normal" ∧
    (create_ticket [("customer_name", "Dana")] 0 0 0).sla_due = none := by
  have h := create_ticket_unrecognized_priority [("customer_name", "Dana")]
    0 0 0 (by decide)
  exact ⟨h.2.2 (by decide), h.2.1⟩

/-- C4 counterexample: on the unrecognized label "Bogus" the repository's
two SLA calculators follow different policies — src/utils.py returns no
due date at all (None) while the isp_ticketing_streamlit_pioneer_pg
calculator falls back to a 72-hour default — so the fallback policy
silently varies between them (and neither raises an InvalidPriority
error). -/
theorem sla_policy_inconsistency_counterexample :
    compute_sla_due "Bogus" jan1_2024_utc = none ∧
    PioneerPg.compute_sla_due "Bogus" jan1_2024_utc =
      jan1_2024_utc + hoursTd 72 ∧
    compute_sla_due "Bogus" jan1_2024_utc ≠
      some (PioneerPg.compute_sla_due "Bogus" jan1_2024_utc) := by
  decide

/-- C4 amended: each SLA calculator is total on every unrecognized
priority label (no unhandled crash, and no InvalidPriority error either),
but the fallback policy differs between the two calculators: src/utils.py
compute_sla_due returns None while the package calculator returns the
72-hour default. -/
theorem sla_unrecognized_policies (p : String) (T : Int)
    (h : p ∉ (["Critical", "High", "Medium", "Low"] : List String)) :
    compute_sla_due p T = none ∧
    PioneerPg.compute_sla_due p T = T + hoursTd 72 := by
  simp only [List.mem_cons, List.not_mem_nil, or_false, not_or] at h
  obtain ⟨hCrit, hHigh, hMed, hLow⟩ := h
  constructor
  · simp [compute_sla_due, hCrit, hHigh, hMed, hLow]
  · simp [PioneerPg.compute_sla_due, PioneerPg.PRIORITY_SLA_HOURS,
      hCrit, hHigh, hMed, hLow]

/-- Witness for C4 amended at a concrete input: the label "Normal" (the
API default) is unrecognized by both calculators. -/
theorem sla_unrecognized_policies_witness :
    compute_sla_due "Normal" 0 = none ∧
    PioneerPg.compute_sla_due "Normal" 0 = 0 + hoursTd 72 :=
  sla_unrecognized_policies "Normal" 0 (by decide)

/-- C5: membership characterization of filter_by_role — an Admin query is
passed through whole; a non-admin role whose group has enumerated members
keeps exactly the tickets whose assignee is one of those members; a role
with no enumerated members keeps exactly the tickets assigned to the
actor's own identity. -/
theorem filter_by_role_membership (tickets : List Ticket) (role user : String)
    (gm : String → List String) (t : Ticket) :
    t ∈ filter_by_role tickets role user gm ↔
      t ∈ tickets ∧
        (role = "Admin" ∨
          (gm role ≠ [] ∧ t.assigned_to ∈ gm role) ∨
          (gm role = [] ∧ t.assigned_to = user)) := by
  by_cases hA : role = "Admin"
  · simp [filter_by_role, hA]
  · by_cases hE : gm role = [] <;>
      simp [filter_by_role, hA, hE, List.mem_filter]

/-- Witness for C5 at a concrete instance: a Support ticket assigned to
"Chuck" passes the Support filter of the default user table. -/
theorem filter_by_role_membership_witness :
    c1_ticket ∈ filter_by_role [c1_ticket] "Support" "Aidan"
      (load_groups [("Admin", "Admin"), ("Chuck", "Support")]) :=
  (filter_by_role_membership [c1_ticket] "Support" "Aidan"
      (load_groups [("Admin", "Admin"), ("Chuck", "Support")]) c1_ticket).mpr
    ⟨by decide, Or.inr (Or.inl ⟨by decide, by decide⟩)⟩

/-- A users table whose groups are Admin and Support; the role "Ghost"
has no enumerated members in it. -/
def c6_users : List (String × String) :=
  [("Admin", "Admin"), ("Chuck", "Support"), ("Aidan", "Support")]

/-- A ticket assigned to the identity "Ghost". -/
def c6_ticket : Ticket :=
  page_new_ticket_create 0 "Eve" "1004" "5550004" "Voice" "phone" "cancel"
    "cancel svc" "Low" "Ghost"

/-- A ticket assigned to "Chuck", a member of the Support group. -/
def c6_ticket2 : Ticket :=
  page_new_ticket_create 0 "Frank" "1005" "5550005" "Fiber" "phone" "repair"
    "slow speeds" "Low" "Chuck"

/-- C6 counterexample: for an actor whose role has no enumerated members
in the groups mapping, the list filter falls back to tickets assigned to
the actor and includes this ticket, while the detail-page permission
check — which lacks that fallback — denies the very same ticket; so
access control is not uniform between list and detail views. -/
theorem detail_vs_list_scope_counterexample :
    c6_ticket ∈ filter_by_role [c6_ticket] "Ghost" "Ghost"
      (load_groups c6_users) ∧
    page_ticket_detail_allowed c6_ticket "Ghost" (load_groups c6_users) =
      false := by
  decide

/-- C6 amended: whenever the role is Admin or its group has at least one
enumerated member, the detail-view check admits a ticket exactly when the
role-based list filter would include it; but for a role with no
enumerated members the detail view denies every ticket, although the
list filter falls back to tickets assigned to the actor. -/
theorem detail_allowed_iff_in_filter (tickets : List Ticket)
    (role user : String) (gm : String → List String) (t : Ticket)
    (ht : t ∈ tickets) :
    ((role = "Admin" ∨ gm role ≠ []) →
      (t ∈ filter_by_role tickets role user gm ↔
        page_ticket_detail_allowed t role gm = true)) ∧
    (role ≠ "Admin" → gm role = [] →
      page_ticket_detail_allowed t role gm = false) := by
  constructor
  · intro h
    by_cases hA : role = "Admin"
    · simp [filter_by_role, page_ticket_detail_allowed, hA, ht]
    · have hE : gm role ≠ [] := h.resolve_left hA
      simp [filter_by_role, page_ticket_detail_allowed, hA, hE,
        List.mem_filter, ht]
  · intro hA hE
    simp [page_ticket_detail_allowed, hA, hE]

/-- Witness for C6 amended at a concrete instance: for the Support role
(which has members), list inclusion and detail-view permission agree on a
ticket assigned to "Chuck". -/
theorem detail_allowed_iff_in_filter_witness :
    c6_ticket2 ∈ filter_by_role [c6_ticket2] "Support" "Aidan"
      (load_groups c6_users) ↔
    page_ticket_detail_allowed c6_ticket2 "Support" (load_groups c6_users) =
      true :=
  (detail_allowed_iff_in_filter [c6_ticket2] "Support" "Aidan"
      (load_groups c6_users) c6_ticket2 (by decide)).1 (Or.inr (by decide))

/-- `stable_sorted_last` returns an element of the list whose created_at
is maximal (and `none` exactly on the empty list). -/
theorem stable_sorted_last_mem_le (l : List TicketEvent) :
    (l = [] ∧ stable_sorted_last l = none) ∨
    ∃ m, stable_sorted_last l = some m ∧ m ∈ l ∧
      ∀ e ∈ l, e.created_at ≤ m.created_at := by
  induction l with
  | nil => exact Or.inl ⟨rfl, rfl⟩
  | cons e es ih =>
    right
    rcases ih with ⟨hnil, hnone⟩ | ⟨m, hm, hmem, hle⟩
    · refine ⟨e, ?_, List.mem_cons_self e es, ?_⟩
      · simp [stable_sorted_last, hnone]
      · intro x hx
        rcases List.mem_cons.mp hx with h | h
        · subst h; exact le_refl _
        · rw [hnil] at h; cases h
    · by_cases hlt : m.created_at < e.created_at
      · refine ⟨e, ?_, List.mem_cons_self e es, ?_⟩
        · simp [stable_sorted_last, hm, hlt]
        · intro x hx
          rcases List.mem_cons.mp hx with h | h
          · subst h; exact le_refl _
          · exact le_of_lt (lt_of_le_of_lt (hle x h) hlt)
      · refine ⟨m, ?_, List.mem_cons_of_mem e hmem, ?_⟩
        · simp [stable_sorted_last, hm, hlt]
        · intro x hx
          rcases List.mem_cons.mp hx with h | h
          · subst h; exact le_of_not_lt hlt
          · exact hle x h

/-- A ticket whose description is empty. -/
def c8_ticket : Ticket :=
  page_new_ticket_create 0 "Gina" "1006" "5550006" "Fiber" "phone" "outage"
    "" "Low" "Chuck"

/-- A ticket with a non-empty description, owner of the three-note
scenario events. -/
def c8_ticket2 : Ticket :=
  page_new_ticket_create 0 "Hank" "1007" "5550007" "Fiber" "phone" "outage"
    "original description" "Low" "Chuck"

/-- Note event "A" at t = 1. -/
def c8_eventA : TicketEvent := ⟨7, "Chuck", "note", some "A", 1⟩

/-- Note event "B" at t = 3. -/
def c8_eventB : TicketEvent := ⟨7, "Chuck", "note", some "B", 3⟩

/-- Note event "C" at t = 2. -/
def c8_eventC : TicketEvent := ⟨7, "Chuck", "note", some "C", 2⟩

/-- C8 counterexample: on a ticket with no note events and an empty
description field, the latest-note view returns the placeholder "-",
not the ticket's description field. -/
theorem latest_note_fallback_counterexample :
    c8_ticket.description = "" ∧
    latest_note c8_ticket [] = "-" ∧
    latest_note c8_ticket [] ≠ c8_ticket.description := by
  decide

/-- C8 amended: among events carrying non-empty note text the latest-note
view returns the note of the event with the maximum created_at
(regardless of insertion order); when no such event exists it returns the
ticket's description if that is non-empty and the placeholder "-"
otherwise. -/
theorem latest_note_spec (t : Ticket) (evs : List TicketEvent) :
    (note_events_of evs = [] →
      latest_note t evs =
        if t.description = "" then "-" else t.description) ∧
    ∀ m ∈ note_events_of evs,
      (∀ e ∈ note_events_of evs, e ≠ m → e.created_at < m.created_at) →
      latest_note t evs = m.note.getD "" := by
  constructor
  · intro h
    simp [latest_note, h, stable_sorted_last]
  · intro m hm hmax
    rcases stable_sorted_last_mem_le (note_events_of evs) with
      ⟨hnil, _⟩ | ⟨m2, h2, hmem2, hle2⟩
    · rw [hnil] at hm; cases hm
    · have heq : m2 = m := by
        by_contra hne
        exact absurd (lt_of_le_of_lt (hle2 m hm) (hmax m2 hmem2 hne))
          (lt_irrefl _)
      rw [heq] at h2
      simp [latest_note, h2]

/-- Witness for C8 amended: three note events "A" (t=1), "B" (t=3),
"C" (t=2), inserted in that order, yield latest note "B". -/
theorem latest_note_spec_witness :
    latest_note c8_ticket2 [c8_eventA, c8_eventB, c8_eventC] = "B" :=
  (latest_note_spec c8_ticket2 [c8_eventA, c8_eventB, c8_eventC]).2
    c8_eventB (by decide) (by decide)

/-- A ticket created at epoch microsecond 0. -/
def c9_ticket1 : Ticket :=
  page_new_ticket_create 0 "Ivy" "1008" "5550008" "Fiber" "phone" "outage"
    "no light" "Low" "Chuck"

/-- A distinct ticket created half a second later, inside the same whole
second. -/
def c9_ticket2 : Ticket :=
  page_new_ticket_create 500000 "Jack" "1009" "5550009" "DSL" "phone"
    "repair" "static" "Low" "Aidan"

/-- C9 counterexample: two distinct tickets created at different
timestamps within the same second receive the same ticket_key, through
the app's creation form and through the API handler alike — keys are not
unique per creation. -/
theorem ticket_key_collision_counterexample :
    c9_ticket1.created_at ≠ c9_ticket2.created_at ∧
    c9_ticket1 ≠ c9_ticket2 ∧
    c9_ticket1.ticket_key = c9_ticket2.ticket_key ∧
    (create_ticket [] 0 0 0).ticket_key =
      (create_ticket [] 500000 500000 500000).ticket_key := by
  decide

/-- C9 amended: the ticket key is a function of the creation timestamp
truncated to whole seconds only — any two creations inside the same
second yield identical keys (the database's unique constraint then
rejects the duplicate insert instead of producing a distinct key) — and
the key is immutable once created: the detail-page update never changes
ticket_key. -/
theorem ticket_key_second_granularity :
    (∀ ts1 ts2 : Int,
      Int.tdiv ts1 microsPerSecond = Int.tdiv ts2 microsPerSecond →
      ticket_key_of ts1 = ticket_key_of ts2) ∧
    (∀ (t : Ticket) (tid : Int) (u s p a n : String) (now : Int),
      (page_ticket_detail_submit t tid u s p a n now).1.ticket_key =
        t.ticket_key) := by
  constructor
  · intro ts1 ts2 h
    simp [ticket_key_of, h]
  · intro t tid u s p a n now
    rfl

/-- Witness for C9 amended at concrete inputs: two timestamps a half
second apart inside the same second give the same key. -/
theorem ticket_key_second_granularity_witness :
    ticket_key_of 250000 = ticket_key_of 750000 :=
  ticket_key_second_granularity.1 250000 750000 (by decide)

end Helpdesk
